import Mathlib

/-!
Verification development for the GoHealth EMR validation-and-quarantine
pipeline (src/Pipeline.py).  The pipeline's DataFrames are shallowly
embedded as lists of indexed rows (the pandas integer index models row
identity); the validation rules, quarantine sink, decision log, ICD
reference-vocabulary stage and the PHI masking stage are translated
directly from the source.  Date values are modelled as `Option Int`
(a parsed timestamp or `none` for NaT, the result of
`pd.to_datetime(..., errors="coerce")`); the SHA-256 digest used for
pseudonymization is an external library call and is modelled as an
arbitrary deterministic function parameter.
-/

namespace EMR

/-- Python `str(x)` as applied by pandas `astype(str)` to a nullable cell:
a missing value (NaN) stringifies to "nan". -/
def pyStr : Option String → String
  | none => "nan"
  | some s => s

/-- Helper for `py_title`: walks the characters tracking whether the previous
character was alphabetic, as Python `str.title` does. -/
def py_title_go : Bool → List Char → List Char
  | _, [] => []
  | prevAlpha, c :: cs =>
    (if c.isAlpha then (if prevAlpha then c.toLower else c.toUpper) else c)
      :: py_title_go c.isAlpha cs

/-- Python `str.title()`: uppercase each alphabetic character that follows a
non-alphabetic one, lowercase the rest. -/
def py_title (s : String) : String := String.mk (py_title_go false s.data)

/-- Python `str.strip()`: remove leading and trailing whitespace. -/
def py_strip (s : String) : String :=
  String.mk
    (((s.data.dropWhile Char.isWhitespace).reverse.dropWhile
      Char.isWhitespace).reverse)

/-- Python `str.upper()` on the ASCII identifiers and codes this pipeline
handles. -/
def py_upper (s : String) : String := String.mk (s.data.map Char.toUpper)

/-- Normalization applied to ICD code cells in `Pipeline.py`
(`astype(str).str.strip().str.upper()`): stringify (NaN becomes "nan"),
strip surrounding whitespace, uppercase. -/
def normCode (v : Option String) : String := py_upper (py_strip (pyStr v))

/-- A patient row after ingestion.  `date_of_birth` holds the value produced
by `pd.to_datetime(..., errors="coerce")`: a timestamp or NaT (`none`). -/
structure Patient where
  patient_id : Option String
  first_name : Option String
  last_name : Option String
  date_of_birth : Option Int
  gender : Option String
deriving DecidableEq

/-- A visit row after ingestion; `visit_date` as for `date_of_birth`. -/
structure Visit where
  visit_id : Option String
  patient_id : Option String
  provider_id : Option String
  visit_date : Option Int
  icd_code : Option String
deriving DecidableEq

/-- A lab row after ingestion. -/
structure Lab where
  visit_id : Option String
  test_name : Option String
  test_value : Option String
deriving DecidableEq

/-- A DataFrame: rows paired with their pandas integer index.  The index is
the identity used by `df.drop(invalid_df.index)`. -/
abbrev Df (α : Type) : Type := List (Nat × α)

/-- A quarantined row: the original row content tagged with the rejecting
rule and its severity, as built in `quarantine_rows` (lines 104-110). -/
structure QRow (α : Type) where
  idx : Nat
  row : α
  quarantine_rule : String
  severity : String
deriving DecidableEq

/-- A decision-log entry as emitted by `log_validation(entity, rule, count,
severity)` (lines 100-102). -/
structure LogEntry where
  entity : String
  rule : String
  count : Nat
  severity : String
deriving DecidableEq

/-- `quarantine_rows(df, invalid_df, entity, rule, severity)` (lines
104-110): append the invalid rows, tagged with rule and severity, to the
entity's quarantine, and return `df.drop(invalid_df.index)` — every row of
`df` whose index occurs in `invalid_df` is removed. -/
def quarantine_rows (df invalid : Df α) (q : List (QRow α))
    (rule severity : String) : Df α × List (QRow α) :=
  (df.filter (fun r => !(invalid.any (fun i => i.1 == r.1))),
   q ++ invalid.map (fun i => ⟨i.1, i.2, rule, severity⟩))

/-- One ERROR/WARN rule invocation as performed at every call site in
`Pipeline.py`: select the invalid rows with a boolean mask, call
`log_validation`, then `quarantine_rows`. -/
def apply_rule (entity rule severity : String) (p : Nat × α → Bool)
    (df : Df α) (q : List (QRow α)) : Df α × List (QRow α) × LogEntry :=
  let invalid := df.filter p
  ((quarantine_rows df invalid q rule severity).1,
   (quarantine_rows df invalid q rule severity).2,
   ⟨entity, rule, invalid.length, severity⟩)

/-- `not_null_check(df, cols, entity)` (lines 112-115): a row is invalid iff
any of the declared columns is null; `hasNull` is the per-entity projection
of `df[cols].isnull().any(axis=1)`. -/
def not_null_check (hasNull : α → Bool) (entity : String) (df : Df α)
    (q : List (QRow α)) : Df α × List (QRow α) × LogEntry :=
  apply_rule entity "NULL_VIOLATION" "ERROR" (fun r => hasNull r.2) df q

/-- The mask `df.duplicated(subset=cols, keep=False)` (line 118): a row is
marked iff some other row (different index) has the same key values; pandas
treats NaN keys as equal, as does equality on `Option`. -/
def dupPred [DecidableEq κ] (key : α → κ) (df : Df α) (r : Nat × α) : Bool :=
  df.any (fun s => decide (s.1 ≠ r.1) && decide (key s.2 = key r.2))

/-- `duplicate_check(df, cols, entity)` (lines 117-120). -/
def duplicate_check [DecidableEq κ] (key : α → κ) (entity : String)
    (df : Df α) (q : List (QRow α)) : Df α × List (QRow α) × LogEntry :=
  apply_rule entity "DUPLICATE_RECORD" "ERROR" (dupPred key df) df q

/-- Cleaning of patient rows (lines 90-92): names are stringified, stripped
and title-cased (so they are never null afterwards); `date_of_birth` is the
`to_datetime` coercion, already reflected in the field's type. -/
def cleanPatient (p : Patient) : Patient :=
  { p with
    first_name := some (py_title (py_strip (pyStr p.first_name))),
    last_name := some (py_title (py_strip (pyStr p.last_name))) }

/-- Cleaning of visit rows (line 94): `visit_date` is the `to_datetime`
coercion, already reflected in the field's type. -/
def cleanVisit (v : Visit) : Visit := v

/-- Cleaning of lab rows (line 95): `test_name` is stringified and
uppercased, so it is never null afterwards. -/
def cleanLab (l : Lab) : Lab :=
  { l with test_name := some (py_upper (pyStr l.test_name)) }

def cleanPatients (df : Df Patient) : Df Patient :=
  df.map (fun r => (r.1, cleanPatient r.2))

def cleanVisits (df : Df Visit) : Df Visit :=
  df.map (fun r => (r.1, cleanVisit r.2))

def cleanLabs (df : Df Lab) : Df Lab :=
  df.map (fun r => (r.1, cleanLab r.2))

/-- Null mask for patients over `["patient_id", "first_name", "last_name",
"date_of_birth"]` (lines 125-129). -/
def patientHasNull (p : Patient) : Bool :=
  p.patient_id.isNone || p.first_name.isNone || p.last_name.isNone ||
    p.date_of_birth.isNone

/-- `patients_df["date_of_birth"] > pd.Timestamp.today()` (line 133); a NaT
date compares false. -/
def dobInFuture (today : Int) (p : Patient) : Bool :=
  match p.date_of_birth with
  | none => false
  | some d => decide (today < d)

/-- Patient validation chain (lines 125-137): not-null, duplicate,
DOB_IN_FUTURE; the entity's quarantine starts empty for the run. -/
def patientsStage (today : Int) (df : Df Patient) :
    Df Patient × List (QRow Patient) × List LogEntry :=
  let s1 := not_null_check patientHasNull "patients" df []
  let s2 := duplicate_check (fun p => p.patient_id) "patients" s1.1 s1.2.1
  let s3 := apply_rule "patients" "DOB_IN_FUTURE" "ERROR"
    (fun r => dobInFuture today r.2) s2.1 s2.2.1
  (s3.1, s3.2.1, [s1.2.2, s2.2.2, s3.2.2])

/-- Null mask for visits over `["visit_id", "patient_id", "provider_id",
"visit_date"]` (lines 142-146); `icd_code` is not checked. -/
def visitHasNull (v : Visit) : Bool :=
  v.visit_id.isNone || v.patient_id.isNone || v.provider_id.isNone ||
    v.visit_date.isNone

/-- The left merge of visits with the surviving patients on `patient_id`
(lines 150-154), projected to the joined `date_of_birth`.  After
`duplicate_check` the surviving patients carry unique `patient_id`s, so the
merge is many-to-one and `find?` returns the unique match (or `none` when
the patient did not survive, in which case pandas fills NaT). -/
def lookupDob (patients : Df Patient) (pid : Option String) : Option Int :=
  match patients.find? (fun r => r.2.patient_id == pid) with
  | none => none
  | some r => r.2.date_of_birth

/-- `visits_df["visit_date"] < visits_df["date_of_birth"]` on the merged
frame (line 156); a comparison involving NaT is false. -/
def visitBeforeDob (patients : Df Patient) (v : Visit) : Bool :=
  match v.visit_date, lookupDob patients v.patient_id with
  | some vd, some dob => decide (vd < dob)
  | _, _ => false

/-- Visits not-null and duplicate checks (lines 142-148). -/
def visitsNullDup (df : Df Visit) :
    Df Visit × List (QRow Visit) × List LogEntry :=
  let s1 := not_null_check visitHasNull "visits" df []
  let s2 := duplicate_check (fun v => v.visit_id) "visits" s1.1 s1.2.1
  (s2.1, s2.2.1, [s1.2.2, s2.2.2])

/-- Visit validation chain (lines 142-161): not-null, duplicate, then
VISIT_BEFORE_DOB against the surviving patients.  The joined
`date_of_birth` column is dropped again (line 161), so the clean output
keeps the original visit columns. -/
def visitsStage (patientsClean : Df Patient) (df : Df Visit) :
    Df Visit × List (QRow Visit) × List LogEntry :=
  let s := visitsNullDup df
  let s3 := apply_rule "visits" "VISIT_BEFORE_DOB" "ERROR"
    (fun r => visitBeforeDob patientsClean r.2) s.1 s.2.1
  (s3.1, s3.2.1, s.2.2 ++ [s3.2.2])

/-- Null mask for labs over `["visit_id", "test_name", "test_value"]`
(lines 166-170). -/
def labHasNull (l : Lab) : Bool :=
  l.visit_id.isNone || l.test_name.isNone || l.test_value.isNone

/-- Labs not-null and duplicate checks (lines 166-172); the duplicate key
is the composite `(visit_id, test_name)`. -/
def labsNullDup (df : Df Lab) : Df Lab × List (QRow Lab) × List LogEntry :=
  let s1 := not_null_check labHasNull "labs" df []
  let s2 := duplicate_check (fun l => (l.visit_id, l.test_name)) "labs"
    s1.1 s1.2.1
  (s2.1, s2.2.1, [s1.2.2, s2.2.2])

/-- `~labs_df["visit_id"].isin(visits_df["visit_id"])` (line 174): a lab row
is an orphan iff no surviving visit has its `visit_id`. -/
def orphanPred (visitsClean : Df Visit) (r : Nat × Lab) : Bool :=
  !(visitsClean.any (fun v => decide (v.2.visit_id = r.2.visit_id)))

/-- Lab validation chain (lines 166-179): not-null, duplicate, then
ORPHAN_VISIT_ID against the surviving visits. -/
def labsStage (visitsClean : Df Visit) (df : Df Lab) :
    Df Lab × List (QRow Lab) × List LogEntry :=
  let s := labsNullDup df
  let s3 := apply_rule "labs" "ORPHAN_VISIT_ID" "ERROR"
    (orphanPred visitsClean) s.1 s.2.1
  (s3.1, s3.2.1, s.2.2 ++ [s3.2.2])

/-- The ICD reference entity: its (normalized, line 186) column names and
the cell values of each column. -/
structure IcdRef where
  columns : List String
  values : String → List (Option String)

/-- The fixed candidate list for the ICD code column (lines 190-198). -/
def ICD_CODE_CANDIDATES : List String :=
  ["code", "icd", "icd_code", "icd10", "diagnosis_code", "diag_code",
   "diagnosis"]

/-- `find_icd_column(df)` (lines 200-204): the first candidate present among
the columns, else `None`. -/
def find_icd_column (cols : List String) : Option String :=
  ICD_CODE_CANDIDATES.find? (fun c => cols.contains c)

/-- A visit row of the clean output after the WARN stage: the (ICD-
normalized) visit annotated with `icd_valid_flag` (line 247). -/
structure FlaggedVisit where
  visit : Visit
  icd_valid_flag : Bool
deriving DecidableEq

/-- The normalized reference vocabulary (lines 215-221): the detected code
column, stringified, stripped and uppercased. -/
def icdCodes (icd : IcdRef) (col : String) : List String :=
  (icd.values col).map normCode

/-- Normalization of the visits' `icd_code` column (lines 229-234). -/
def icdNormVisits (visits : Df Visit) : Df Visit :=
  visits.map
    (fun r => (r.1, { r.2 with icd_code := some (normCode r.2.icd_code) }))

/-- `invalid_icd = visits_df[~visits_df["icd_code"].isin(icd_df["code"])]`
(line 237), on the normalized frame. -/
def icdInvalid (icd : IcdRef) (col : String) (visits : Df Visit) : Df Visit :=
  (icdNormVisits visits).filter
    (fun r => !((icdCodes icd col).contains (pyStr r.2.icd_code)))

/-- The WARN quarantine records for the invalid-vocabulary rows
(lines 250-257). -/
def icdEntries (icd : IcdRef) (col : String) (visits : Df Visit) :
    List (QRow Visit) :=
  (icdInvalid icd col visits).map
    (fun r => (⟨r.1, r.2, "INVALID_ICD_CODE", "WARN"⟩ : QRow Visit))

/-- The clean visits annotated with
`icd_valid_flag = visits_df["icd_code"].isin(icd_df["code"])` (line 247);
every row is kept. -/
def icdFlagged (icd : IcdRef) (col : String) (visits : Df Visit) :
    Df FlaggedVisit :=
  (icdNormVisits visits).map
    (fun r => (r.1, ⟨r.2, (icdCodes icd col).contains (pyStr r.2.icd_code)⟩))

/-- The ICD reference-vocabulary stage (lines 200-257).  If no candidate
column is found the run aborts with a `ValueError` reporting the columns
actually found (lines 209-212), modelled as an `Except.error` carrying the
message and the column list.  Otherwise the reference codes and the visits'
`icd_code` are normalized, the rows whose code is absent from the
vocabulary are tagged `INVALID_ICD_CODE`/WARN into the visits quarantine,
one log entry is emitted, and every visit row is kept in the clean output
carrying `icd_valid_flag` (flag-but-do-not-drop, lines 246-257).  The typed
row model makes the visits `icd_code` column always present, so the second
`ValueError` (lines 224-227) cannot fire. -/
def icdStage (icd : IcdRef) (visits : Df Visit) :
    Except (String × List String)
      (Df FlaggedVisit × List (QRow Visit) × LogEntry) :=
  match find_icd_column icd.columns with
  | none => .error ("ICD reference missing ICD column. Found columns:",
      icd.columns)
  | some col =>
    .ok (icdFlagged icd col visits, icdEntries icd col visits,
      ⟨"visits", "INVALID_ICD_CODE", (icdInvalid icd col visits).length,
        "WARN"⟩)

/-- The outputs of the validation core of one run: the clean entity sets,
the per-entity quarantines and the decision log. -/
structure RunResult where
  patients : Df Patient
  visits : Df FlaggedVisit
  labs : Df Lab
  qPatients : List (QRow Patient)
  qVisits : List (QRow Visit)
  qLabs : List (QRow Lab)
  log : List LogEntry
deriving DecidableEq

/-- The validation core of one pipeline run, in source order: cleaning
(lines 90-95), patient rules (125-137), visit rules (142-161) against the
surviving patients, lab rules (166-179) against the surviving visits, then
the WARN ICD stage on the surviving visits (200-257).  A missing ICD
reference column aborts the run. -/
def runPipeline (today : Int) (icd : IcdRef) (p0 : Df Patient)
    (v0 : Df Visit) (l0 : Df Lab) :
    Except (String × List String) RunResult :=
  let ps := patientsStage today (cleanPatients p0)
  let vs := visitsStage ps.1 (cleanVisits v0)
  let ls := labsStage vs.1 (cleanLabs l0)
  match icdStage icd vs.1 with
  | .error e => .error e
  | .ok fl =>
    .ok ⟨ps.1, fl.1, ls.1, ps.2.1, vs.2.1 ++ fl.2.1, ls.2.1,
      ps.2.2 ++ vs.2.2 ++ ls.2.2 ++ [fl.2.2]⟩

/-- Partial name redaction (lines 262-264): keep the first character and
append the mask token; pandas `.str[0]` on an empty string yields NaN, and
on a missing value stays missing. -/
def maskName (v : Option String) : Option String :=
  match v with
  | none => none
  | some s =>
    match s.data with
    | [] => none
    | c :: _ => some (String.mk [c] ++ "*****")

/-- Name masking applied to a patient row (lines 262-264). -/
def maskNames (p : Patient) : Patient :=
  { p with
    first_name := maskName p.first_name,
    last_name := maskName p.last_name }

/-- A patient row of the masked output: the name-masked row plus the
`patient_id_hash` column (lines 266-269). -/
structure MaskedPatient where
  patient : Patient
  patient_id_hash : String
deriving DecidableEq

/-- The PHI masking stage on patients (lines 262-269): name redaction, then
`patient_id_hash = sha256(str(patient_id)).hexdigest()` applied to every
row.  The digest (`h`) is an external library call, modelled as a function
parameter.  The source performs no collision detection and has no failure
path here. -/
def maskStage (h : String → String) (patients : Df Patient) :
    Df MaskedPatient :=
  (patients.map (fun r => (r.1, maskNames r.2))).map
    (fun r => (r.1, ⟨r.2, h (pyStr r.2.patient_id)⟩))

/-- Invariant threaded through a per-entity rule chain: row indices are
unique in the working set and in the quarantine, and the two are disjoint
(no row is simultaneously clean and quarantined). -/
def StOk {α : Type} (df : Df α) (q : List (QRow α)) : Prop :=
  (df.map Prod.fst).Nodup ∧ (q.map QRow.idx).Nodup ∧
    ∀ r ∈ df, ∀ e ∈ q, r.1 ≠ e.idx

/-- A concrete ICD reference sheet with vocabulary `\x7b"A01"\x7d`. -/
def exIcd : IcdRef :=
  ⟨["code", "description"],
   fun c => if c = "code" then [some "A01"] else [some "Alpha"]⟩

/-- A single patient whose date of birth lies in the future of run day
1000, so the patient is quarantined under DOB_IN_FUTURE. -/
def exPatients : Df Patient :=
  [(0, ⟨some "P1", some "Ann", some "Lee", some 2000, some "F"⟩)]

/-- A single visit referencing the quarantined patient "P1"; all of its own
ERROR rules pass. -/
def exVisits : Df Visit :=
  [(0, ⟨some "V1", some "P1", some "D1", some 500, some "A01"⟩)]

/-- Two labs: one referencing the surviving visit "V1", one referencing the
nonexistent visit "VX" (an orphan). -/
def exLabs : Df Lab :=
  [(0, ⟨some "V1", some "HB", some "7"⟩),
   (1, ⟨some "VX", some "NA", some "3"⟩)]

/-- The result of the example run (the run succeeds, so the `error` default
is never taken). -/
def exResult : RunResult :=
  match runPipeline 1000 exIcd exPatients exVisits exLabs with
  | .ok r => r
  | .error _ => ⟨[], [], [], [], [], [], []⟩

/-- A constant digest, standing in for a digest collision on the two
distinct keys of `exPatientsAB`. -/
def constHash : String → String := fun _ => "0"

/-- Two patients with distinct `patient_id`s. -/
def exPatientsAB : Df Patient :=
  [(0, ⟨some "A", some "Ann", some "Lee", some 10, some "F"⟩),
   (1, ⟨some "B", some "Bea", some "Poe", some 20, some "F"⟩)]

/-- An ICD reference sheet none of whose column names is a recognized
candidate. -/
def exIcdBad : IcdRef := ⟨["foo", "bar"], fun _ => []⟩

/-- Three visits for the ICD stage: a code in the vocabulary, a code
outside it, and a missing code. -/
def exIcdVisits : Df Visit :=
  [(0, ⟨some "V1", some "P1", some "D1", some 500, some "A01"⟩),
   (1, ⟨some "V2", some "P1", some "D1", some 600, some "Z99"⟩),
   (2, ⟨some "V3", some "P1", some "D1", some 700, none⟩)]

/-- The concrete result of the ICD stage on `exIcdVisits` (the stage
succeeds, so the `error` default is never taken). -/
def exIcdOut : Df FlaggedVisit × List (QRow Visit) × LogEntry :=
  match icdStage exIcd exIcdVisits with
  | .ok fl => fl
  | .error _ => ([], [], ⟨"", "", 0, ""⟩)

/-- Helper: filtering a list by a predicate and by its negation splits its
length. -/
theorem length_filter_not_add {α : Type} (p : α → Bool) (l : List α) :
    (l.filter (fun a => !p a)).length + (l.filter p).length = l.length := by
  induction l with
  | nil => rfl
  | cons a t ih => cases hp : p a <;> simp [List.filter_cons, hp] <;> omega

/-- Helper: a list containing two different elements has length at least
two. -/
theorem two_le_length_of_mem_ne {α : Type} {l : List α} {a b : α}
    (ha : a ∈ l) (hb : b ∈ l) (hne : a ≠ b) : 2 ≤ l.length := by
  obtain ⟨s, t, rfl⟩ := List.append_of_mem ha
  rcases List.mem_append.1 hb with h | h
  · have hs := List.length_pos.2 (List.ne_nil_of_mem h)
    simp only [List.length_append, List.length_cons]
    omega
  · rcases List.mem_cons.1 h with h | h
    · exact absurd h.symm hne
    · have ht := List.length_pos.2 (List.ne_nil_of_mem h)
      simp only [List.length_append, List.length_cons]
      omega

/-- Helper: in a duplicate-free list of length at least two, every element
has a companion differing from it. -/
theorem exists_ne_mem_of_nodup {α : Type} {l : List α} (hnd : l.Nodup)
    (hlen : 2 ≤ l.length) {a : α} (ha : a ∈ l) : ∃ b ∈ l, b ≠ a := by
  cases l with
  | nil => simp at ha
  | cons x t =>
    cases t with
    | nil => simp at hlen
    | cons y t' =>
      by_cases hax : a = x
      · subst hax
        refine ⟨y, by simp, fun hya => ?_⟩
        have hx : a ∉ y :: t' := (List.nodup_cons.1 hnd).1
        apply hx
        rw [hya]
        exact List.mem_cons_self a t'
      · exact ⟨x, by simp, fun hxa => hax hxa.symm⟩

/-- Helper: with duplicate-free indices, a row of a frame is determined by
its index. -/
theorem idx_inj {α : Type} {df : Df α} (hnd : (df.map Prod.fst).Nodup)
    {r s : Nat × α} (hr : r ∈ df) (hs : s ∈ df) (h : r.1 = s.1) : r = s :=
  List.inj_on_of_nodup_map hnd hr hs h

/-- Helper: on the rows of `df`, membership of the index in the
mask-selected invalid set (the test performed by
`df.drop(invalid_df.index)`) agrees with the mask itself. -/
theorem any_idx_eq {α : Type} {df : Df α} (hnd : (df.map Prod.fst).Nodup)
    (p : Nat × α → Bool) {r : Nat × α} (hr : r ∈ df) :
    (df.filter p).any (fun i => i.1 == r.1) = p r := by
  cases hp : p r with
  | true =>
    apply List.any_eq_true.2
    exact ⟨r, List.mem_filter.2 ⟨hr, hp⟩, by simp⟩
  | false =>
    refine Bool.eq_false_iff.2 (fun hany => ?_)
    obtain ⟨i, hi, hbeq⟩ := List.any_eq_true.1 hany
    rw [List.mem_filter] at hi
    have hir : i = r := idx_inj hnd hi.1 hr (by simpa using hbeq)
    rw [hir] at hi
    rw [hi.2] at hp
    exact Bool.noConfusion hp

/-- Helper: one rule application, on a frame with duplicate-free indices,
computes the complementary filter and appends the tagged invalid rows. -/
theorem apply_rule_eq {α : Type} (entity rule sev : String)
    (p : Nat × α → Bool) (df : Df α) (q : List (QRow α))
    (hnd : (df.map Prod.fst).Nodup) :
    apply_rule entity rule sev p df q =
      (df.filter (fun r => !p r),
       q ++ (df.filter p).map (fun i => (⟨i.1, i.2, rule, sev⟩ : QRow α)),
       (⟨entity, rule, (df.filter p).length, sev⟩ : LogEntry)) := by
  have h1 : df.filter
      (fun r => !((df.filter p).any (fun i => i.1 == r.1))) =
      df.filter (fun r => !p r) :=
    List.filter_congr (fun r hr => by rw [any_idx_eq hnd p hr])
  simp only [apply_rule, quarantine_rows]
  rw [h1]

/-- Helper: index lists of filtered frames stay duplicate-free. -/
theorem filter_idx_nodup {α : Type} {df : Df α}
    (hnd : (df.map Prod.fst).Nodup) (p : Nat × α → Bool) :
    ((df.filter p).map Prod.fst).Nodup :=
  List.Nodup.sublist (List.Sublist.map Prod.fst (List.filter_sublist df)) hnd

/-- Helper: one ERROR rule application preserves the chain invariant. -/
theorem apply_rule_StOk {α : Type} (entity rule sev : String)
    (p : Nat × α → Bool) {df : Df α} {q : List (QRow α)} (h : StOk df q) :
    StOk (apply_rule entity rule sev p df q).1
      (apply_rule entity rule sev p df q).2.1 := by
  obtain ⟨h1, h2, h3⟩ := h
  rw [apply_rule_eq entity rule sev p df q h1]
  refine ⟨filter_idx_nodup h1 _, ?_, ?_⟩
  · rw [List.map_append, List.map_map]
    refine List.Nodup.append h2 (filter_idx_nodup h1 p) ?_
    intro a ha hb
    obtain ⟨e, he, hea⟩ := List.mem_map.1 ha
    obtain ⟨i, hi, hia⟩ := List.mem_map.1 hb
    have hidf : i ∈ df := (List.mem_filter.1 hi).1
    exact h3 i hidf e he (hia.trans hea.symm)
  · intro r hr e he
    rcases List.mem_append.1 he with he | he
    · exact h3 r (List.mem_filter.1 hr).1 e he
    · obtain ⟨i, hi, rfl⟩ := List.mem_map.1 he
      intro hri
      have hie : r = i :=
        idx_inj h1 (List.mem_filter.1 hr).1 (List.mem_filter.1 hi).1 hri
      have hpr := (List.mem_filter.1 hi).2
      have hnr := (List.mem_filter.1 hr).2
      rw [← hie] at hpr
      rw [hpr] at hnr
      simp at hnr

/-- Helper: the empty quarantine satisfies the chain invariant. -/
theorem StOk_nil {α : Type} {df : Df α} (hnd : (df.map Prod.fst).Nodup) :
    StOk df ([] : List (QRow α)) :=
  ⟨hnd, List.nodup_nil, fun _ _ e he => absurd he (List.not_mem_nil e)⟩

/-- Helper: the patient chain preserves the invariant. -/
theorem patientsStage_StOk (today : Int) {df : Df Patient}
    (hnd : (df.map Prod.fst).Nodup) :
    StOk (patientsStage today df).1 (patientsStage today df).2.1 :=
  apply_rule_StOk "patients" "DOB_IN_FUTURE" "ERROR" _
    (apply_rule_StOk "patients" "DUPLICATE_RECORD" "ERROR" _
      (apply_rule_StOk "patients" "NULL_VIOLATION" "ERROR" _ (StOk_nil hnd)))

/-- Helper: the visit null and duplicate checks preserve the invariant. -/
theorem visitsNullDup_StOk {df : Df Visit}
    (hnd : (df.map Prod.fst).Nodup) :
    StOk (visitsNullDup df).1 (visitsNullDup df).2.1 :=
  apply_rule_StOk "visits" "DUPLICATE_RECORD" "ERROR" _
    (apply_rule_StOk "visits" "NULL_VIOLATION" "ERROR" _ (StOk_nil hnd))

/-- Helper: the visit chain preserves the invariant. -/
theorem visitsStage_StOk (pClean : Df Patient) {df : Df Visit}
    (hnd : (df.map Prod.fst).Nodup) :
    StOk (visitsStage pClean df).1 (visitsStage pClean df).2.1 :=
  apply_rule_StOk "visits" "VISIT_BEFORE_DOB" "ERROR" _
    (visitsNullDup_StOk hnd)

/-- Helper: the lab null and duplicate checks preserve the invariant. -/
theorem labsNullDup_StOk {df : Df Lab}
    (hnd : (df.map Prod.fst).Nodup) :
    StOk (labsNullDup df).1 (labsNullDup df).2.1 :=
  apply_rule_StOk "labs" "DUPLICATE_RECORD" "ERROR" _
    (apply_rule_StOk "labs" "NULL_VIOLATION" "ERROR" _ (StOk_nil hnd))

/-- Helper: the lab chain preserves the invariant. -/
theorem labsStage_StOk (vClean : Df Visit) {df : Df Lab}
    (hnd : (df.map Prod.fst).Nodup) :
    StOk (labsStage vClean df).1 (labsStage vClean df).2.1 :=
  apply_rule_StOk "labs" "ORPHAN_VISIT_ID" "ERROR" _ (labsNullDup_StOk hnd)

/-- Helper: cleaning keeps the row indices. -/
theorem cleanPatients_idx (df : Df Patient) :
    (cleanPatients df).map Prod.fst = df.map Prod.fst := by
  rw [cleanPatients, List.map_map]
  rfl

/-- Helper: cleaning keeps the row indices. -/
theorem cleanVisits_idx (df : Df Visit) :
    (cleanVisits df).map Prod.fst = df.map Prod.fst := by
  rw [cleanVisits, List.map_map]
  rfl

/-- Helper: cleaning keeps the row indices. -/
theorem cleanLabs_idx (df : Df Lab) :
    (cleanLabs df).map Prod.fst = df.map Prod.fst := by
  rw [cleanLabs, List.map_map]
  rfl

/-- Helper: a successful ICD stage comes from a detected column, and its
payload is built from that column. -/
theorem icdStage_ok {icd : IcdRef} {visits : Df Visit}
    {fl : Df FlaggedVisit × List (QRow Visit) × LogEntry}
    (hok : icdStage icd visits = .ok fl) :
    ∃ col, find_icd_column icd.columns = some col ∧
      fl = (icdFlagged icd col visits, icdEntries icd col visits,
        (⟨"visits", "INVALID_ICD_CODE", (icdInvalid icd col visits).length,
          "WARN"⟩ : LogEntry)) := by
  unfold icdStage at hok
  cases hfind : find_icd_column icd.columns with
  | none =>
    rw [hfind] at hok
    exact Except.noConfusion hok
  | some col =>
    rw [hfind] at hok
    injection hok with h
    exact ⟨col, rfl, h.symm⟩

/-- Helper: when no candidate column exists, the ICD stage fails with the
column report. -/
theorem icdStage_error {icd : IcdRef} (visits : Df Visit)
    (hnone : find_icd_column icd.columns = none) :
    icdStage icd visits =
      .error ("ICD reference missing ICD column. Found columns:",
        icd.columns) := by
  unfold icdStage
  rw [hnone]

/-- Helper: a successful run decomposes into its stages in dependency
order. -/
theorem runPipeline_ok {today : Int} {icd : IcdRef} {p0 : Df Patient}
    {v0 : Df Visit} {l0 : Df Lab} {res : RunResult}
    (hok : runPipeline today icd p0 v0 l0 = .ok res) :
    ∃ fl, icdStage icd (visitsStage (patientsStage today
        (cleanPatients p0)).1 (cleanVisits v0)).1 = .ok fl ∧
      res = ⟨(patientsStage today (cleanPatients p0)).1, fl.1,
        (labsStage (visitsStage (patientsStage today (cleanPatients p0)).1
          (cleanVisits v0)).1 (cleanLabs l0)).1,
        (patientsStage today (cleanPatients p0)).2.1,
        (visitsStage (patientsStage today (cleanPatients p0)).1
          (cleanVisits v0)).2.1 ++ fl.2.1,
        (labsStage (visitsStage (patientsStage today (cleanPatients p0)).1
          (cleanVisits v0)).1 (cleanLabs l0)).2.1,
        (patientsStage today (cleanPatients p0)).2.2 ++
          (visitsStage (patientsStage today (cleanPatients p0)).1
            (cleanVisits v0)).2.2 ++
          (labsStage (visitsStage (patientsStage today (cleanPatients p0)).1
            (cleanVisits v0)).1 (cleanLabs l0)).2.2 ++ [fl.2.2]⟩ := by
  simp only [runPipeline] at hok
  split at hok
  · exact Except.noConfusion hok
  · rename_i fl hicd
    injection hok with h
    exact ⟨fl, hicd, h.symm⟩

/-- C2: every ERROR-severity rule application — an invalid mask followed by
`quarantine_rows`, the shape of every call site in the source — is a total
partition of its input record set: the survivors are exactly the mask's
complement in input order, the new quarantine entries are exactly the
mask's selection (appended, tagged, in input order), the lengths add up to
the input length, row order is preserved in each half, and every input row
lands in exactly one of the two halves. -/
theorem C2_rule_total_partition {α : Type} (entity rule sev : String)
    (p : Nat × α → Bool) (df : Df α) (q : List (QRow α))
    (hnd : (df.map Prod.fst).Nodup) :
    (apply_rule entity rule sev p df q).1 = df.filter (fun r => !p r) ∧
    (apply_rule entity rule sev p df q).2.1 =
      q ++ (df.filter p).map (fun i => (⟨i.1, i.2, rule, sev⟩ : QRow α)) ∧
    (apply_rule entity rule sev p df q).1.length +
      (df.filter p).length = df.length ∧
    (apply_rule entity rule sev p df q).1.Sublist df ∧
    (df.filter p).Sublist df ∧
    (∀ r ∈ df,
      (r ∈ (apply_rule entity rule sev p df q).1 ∧ r ∉ df.filter p) ∨
      (r ∉ (apply_rule entity rule sev p df q).1 ∧ r ∈ df.filter p)) := by
  rw [apply_rule_eq entity rule sev p df q hnd]
  refine ⟨rfl, rfl, length_filter_not_add p df, List.filter_sublist df,
    List.filter_sublist df, ?_⟩
  intro r hr
  cases hp : p r with
  | true =>
    right
    constructor
    · intro hmem
      have hx := (List.mem_filter.1 hmem).2
      rw [hp] at hx
      simp at hx
    · exact List.mem_filter.2 ⟨hr, hp⟩
  | false =>
    left
    constructor
    · refine List.mem_filter.2 ⟨hr, ?_⟩
      rw [hp]
      rfl
    · intro hmem
      have hx := (List.mem_filter.1 hmem).2
      rw [hp] at hx
      exact Bool.noConfusion hx

/-- Witness for C2: the length equation at a concrete two-row frame whose
mask selects the second row. -/
theorem C2_rule_total_partition_witness :
    (apply_rule "labs" "NULL_VIOLATION" "ERROR" (fun r => r.2 == 0)
        ([(0, 5), (1, 0)] : Df Nat) []).1.length +
      ((([(0, 5), (1, 0)] : Df Nat)).filter (fun r => r.2 == 0)).length =
      ([(0, 5), (1, 0)] : Df Nat).length :=
  (C2_rule_total_partition "labs" "NULL_VIOLATION" "ERROR"
    (fun r => r.2 == 0) [(0, 5), (1, 0)] [] (by decide)).2.2.1

/-- C5: the duplicate check marks as invalid exactly the rows whose key is
non-unique within the current record set; when several rows share a key all
of them are quarantined (tagged DUPLICATE_RECORD/ERROR), not just the rows
after the first occurrence; the surviving rows carry pairwise distinct
keys. -/
theorem C5_duplicate_ties {α κ : Type} [DecidableEq κ] (key : α → κ)
    (entity : String) (df : Df α) (q : List (QRow α))
    (hnd : (df.map Prod.fst).Nodup) :
    (∀ r ∈ df, (dupPred key df r = true ↔
      2 ≤ df.countP (fun s => decide (key s.2 = key r.2)))) ∧
    (∀ r ∈ df, ∀ s ∈ df, r ≠ s → key r.2 = key s.2 →
      (⟨r.1, r.2, "DUPLICATE_RECORD", "ERROR"⟩ : QRow α) ∈
        (duplicate_check key entity df q).2.1 ∧
      (⟨s.1, s.2, "DUPLICATE_RECORD", "ERROR"⟩ : QRow α) ∈
        (duplicate_check key entity df q).2.1) ∧
    (∀ r ∈ (duplicate_check key entity df q).1,
      ∀ s ∈ (duplicate_check key entity df q).1,
        key r.2 = key s.2 → r = s) := by
  have hdup : ∀ r ∈ df, ∀ s ∈ df, r ≠ s → key r.2 = key s.2 →
      dupPred key df r = true := by
    intro r hr s hs hrs hk
    apply List.any_eq_true.2
    refine ⟨s, hs, ?_⟩
    have h1 : s.1 ≠ r.1 := fun h => hrs (idx_inj hnd hr hs h.symm)
    simp [h1, hk.symm]
  refine ⟨?_, ?_, ?_⟩
  · intro r hr
    constructor
    · intro h
      obtain ⟨s, hs, hb⟩ := List.any_eq_true.1 h
      simp only [Bool.and_eq_true, decide_eq_true_eq] at hb
      have hsr : s ≠ r := fun h => hb.1 (h ▸ rfl)
      rw [List.countP_eq_length_filter]
      refine two_le_length_of_mem_ne
        (List.mem_filter.2 ⟨hs, by simp [hb.2]⟩)
        (List.mem_filter.2 ⟨hr, by simp⟩) hsr
    · intro h
      rw [List.countP_eq_length_filter] at h
      have hfn : (df.filter (fun s => decide (key s.2 = key r.2))).Nodup :=
        List.Nodup.sublist (List.filter_sublist df) (List.Nodup.of_map _ hnd)
      have hrf : r ∈ df.filter (fun s => decide (key s.2 = key r.2)) :=
        List.mem_filter.2 ⟨hr, by simp⟩
      obtain ⟨s, hs, hsr⟩ := exists_ne_mem_of_nodup hfn h hrf
      have hsd := List.mem_filter.1 hs
      have hk : key s.2 = key r.2 := by simpa using hsd.2
      exact hdup r hr s hsd.1 (fun h => hsr (h ▸ rfl)) hk.symm
  · intro r hr s hs hrs hk
    have h1 := hdup r hr s hs hrs hk
    have h2 := hdup s hs r hr (fun h => hrs h.symm) hk.symm
    rw [duplicate_check, apply_rule_eq _ _ _ _ _ _ hnd]
    constructor
    · exact List.mem_append.2 (Or.inr (List.mem_map.2
        ⟨r, List.mem_filter.2 ⟨hr, h1⟩, rfl⟩))
    · exact List.mem_append.2 (Or.inr (List.mem_map.2
        ⟨s, List.mem_filter.2 ⟨hs, h2⟩, rfl⟩))
  · intro r hr s hs hk
    rw [duplicate_check, apply_rule_eq _ _ _ _ _ _ hnd] at hr hs
    by_contra hrs
    have h1 := hdup r (List.mem_filter.1 hr).1 s (List.mem_filter.1 hs).1
      hrs hk
    have h2 := (List.mem_filter.1 hr).2
    rw [h1] at h2
    exact Bool.noConfusion h2

/-- Witness for C5: on a three-row frame where rows 0 and 1 share the key,
both tie rows appear in the quarantine. -/
theorem C5_duplicate_ties_witness :
    (⟨0, 7, "DUPLICATE_RECORD", "ERROR"⟩ : QRow Nat) ∈
      (duplicate_check (fun n => n) "labs"
        ([(0, 7), (1, 7), (2, 5)] : Df Nat) []).2.1 ∧
    (⟨1, 7, "DUPLICATE_RECORD", "ERROR"⟩ : QRow Nat) ∈
      (duplicate_check (fun n => n) "labs"
        ([(0, 7), (1, 7), (2, 5)] : Df Nat) []).2.1 :=
  (C5_duplicate_ties (fun n => n) "labs" [(0, 7), (1, 7), (2, 5)] []
    (by decide)).2.1 (0, 7) (by decide) (1, 7) (by decide) (by decide)
    (by decide)

/-- C9: when none of the fixed candidate column names occurs in the ICD
reference entity, the ICD stage — and therefore the whole run — aborts
with a configuration error whose payload reports the columns actually
found; the aborted run produces no quarantine output at all, so in
particular no row is quarantined for this condition. -/
theorem C9_missing_icd_column_aborts (today : Int) (icd : IcdRef)
    (visits : Df Visit) (p0 : Df Patient) (v0 : Df Visit) (l0 : Df Lab)
    (hnone : ∀ c ∈ ICD_CODE_CANDIDATES, icd.columns.contains c = false) :
    icdStage icd visits =
      .error ("ICD reference missing ICD column. Found columns:",
        icd.columns) ∧
    runPipeline today icd p0 v0 l0 =
      .error ("ICD reference missing ICD column. Found columns:",
        icd.columns) := by
  have hf : find_icd_column icd.columns = none :=
    List.find?_eq_none.2 (fun c hc => by simpa using hnone c hc)
  refine ⟨icdStage_error visits hf, ?_⟩
  simp only [runPipeline]
  rw [icdStage_error _ hf]

/-- Witness for C9 at a reference sheet with columns ["foo", "bar"]. -/
theorem C9_missing_icd_column_aborts_witness :
    icdStage exIcdBad exVisits =
      .error ("ICD reference missing ICD column. Found columns:",
        exIcdBad.columns) ∧
    runPipeline 1000 exIcdBad exPatients exVisits exLabs =
      .error ("ICD reference missing ICD column. Found columns:",
        exIcdBad.columns) :=
  C9_missing_icd_column_aborts 1000 exIcdBad exVisits exPatients exVisits
    exLabs (by decide)

/-- C3 counterexample: the two patients carry distinct keys "A" and "B",
yet under a digest on which those keys collide the masking stage completes
and emits both rows with the identical masked key "0" — the identities are
silently merged in the output instead of the run failing; the source
performs no collision detection at all (lines 266-275). -/
theorem C3_counterexample :
    ((exPatientsAB.map (fun r => r.2.patient_id)).Nodup) ∧
    (maskStage constHash exPatientsAB).map
      (fun r => r.2.patient_id_hash) = ["0", "0"] ∧
    (maskStage constHash exPatientsAB).map
      (fun r => r.2.patient.patient_id) = [some "A", some "B"] := by
  decide

/-- C3 amended: pseudonymization is unconditional and total — every
patient row is emitted, with `patient_id_hash` equal to the digest of its
(unchanged) original key, and the digest is applied deterministically, so
equal keys always yield equal masked values; no collision check exists, so
the output is produced even under a digest collision. -/
theorem C3_amended_no_collision_check (h : String → String)
    (ps : Df Patient) :
    (maskStage h ps).length = ps.length ∧
    (∀ r ∈ maskStage h ps,
      r.2.patient_id_hash = h (pyStr r.2.patient.patient_id)) ∧
    (∀ r ∈ ps, ∀ s ∈ ps, r.2.patient_id = s.2.patient_id →
      h (pyStr r.2.patient_id) = h (pyStr s.2.patient_id)) := by
  refine ⟨by simp [maskStage], ?_, ?_⟩
  · intro r hr
    simp only [maskStage, List.map_map, List.mem_map] at hr
    obtain ⟨x, hx, rfl⟩ := hr
    rfl
  · intro r hr s hs hk
    rw [hk]

/-- Witness for C3 amended: the masked output of the collision example
keeps both rows. -/
theorem C3_amended_no_collision_check_witness :
    (maskStage constHash exPatientsAB).length = exPatientsAB.length :=
  (C3_amended_no_collision_check constHash exPatientsAB).1

/-- Helper: the row indices of the normalized visits frame are those of
the input. -/
theorem icdNormVisits_idx (visits : Df Visit) :
    (icdNormVisits visits).map Prod.fst = visits.map Prod.fst := by
  rw [icdNormVisits, List.map_map]
  rfl

/-- C4: under the WARN vocabulary rule every visit row stays in the clean
output, carrying `icd_valid_flag` equal to vocabulary membership of its
normalized code; a row whose code is absent from the vocabulary is
additionally copied into the visits quarantine tagged
INVALID_ICD_CODE/WARN, while a row whose code is present receives no
quarantine entry from this stage. -/
theorem C4_warn_flag_and_quarantine (icd : IcdRef) (visits : Df Visit)
    (fl : Df FlaggedVisit × List (QRow Visit) × LogEntry) (col : String)
    (hnd : (visits.map Prod.fst).Nodup)
    (hok : icdStage icd visits = .ok fl)
    (hcol : find_icd_column icd.columns = some col) :
    ∀ r ∈ visits,
      ((r.1, (⟨{ r.2 with icd_code := some (normCode r.2.icd_code) },
          (icdCodes icd col).contains (normCode r.2.icd_code)⟩ :
            FlaggedVisit)) ∈ fl.1) ∧
      ((icdCodes icd col).contains (normCode r.2.icd_code) = false →
        (⟨r.1, { r.2 with icd_code := some (normCode r.2.icd_code) },
          "INVALID_ICD_CODE", "WARN"⟩ : QRow Visit) ∈ fl.2.1) ∧
      ((icdCodes icd col).contains (normCode r.2.icd_code) = true →
        ∀ e ∈ fl.2.1, e.idx ≠ r.1) := by
  obtain ⟨col2, hcol2, rfl⟩ := icdStage_ok hok
  rw [hcol] at hcol2
  injection hcol2 with hc
  subst hc
  intro r hr
  have h1 : ((r.1, { r.2 with icd_code := some (normCode r.2.icd_code) }) :
      Nat × Visit) ∈ icdNormVisits visits :=
    List.mem_map.2 ⟨r, hr, rfl⟩
  refine ⟨List.mem_map.2 ⟨_, h1, rfl⟩, ?_, ?_⟩
  · intro hmiss
    have hmiss2 : normCode r.2.icd_code ∉ icdCodes icd col := by
      simpa using hmiss
    refine List.mem_map.2
      ⟨(r.1, { r.2 with icd_code := some (normCode r.2.icd_code) }),
        List.mem_filter.2 ⟨h1, ?_⟩, rfl⟩
    simp [pyStr, hmiss2]
  · intro hhit e he
    obtain ⟨i, hi, rfl⟩ := List.mem_map.1 he
    intro hir
    have hnv : ((icdNormVisits visits).map Prod.fst).Nodup := by
      rw [icdNormVisits_idx]
      exact hnd
    have hieq : i =
        (r.1, { r.2 with icd_code := some (normCode r.2.icd_code) }) :=
      idx_inj hnv (List.mem_filter.1 hi).1 h1 hir
    have hp := (List.mem_filter.1 hi).2
    rw [hieq] at hp
    simp [pyStr] at hp
    exact hp (by simpa using hhit)

/-- Witness for C4: in the concrete ICD stage the row with code "Z99"
(absent from the vocabulary) appears in the WARN quarantine. -/
theorem C4_warn_flag_and_quarantine_witness :
    (⟨1, ⟨some "V2", some "P1", some "D1", some 600, some "Z99"⟩,
      "INVALID_ICD_CODE", "WARN"⟩ : QRow Visit) ∈ exIcdOut.2.1 :=
  ((C4_warn_flag_and_quarantine exIcd exIcdVisits exIcdOut "code"
      (by decide) rfl (by decide))
    (1, ⟨some "V2", some "P1", some "D1", some 600, some "Z99"⟩)
    (by decide)).2.1 (by decide)

/-- C10: a null `icd_code` is not a null violation — the visits null check
does not inspect `icd_code`; string coercion turns the null into "NAN", and
when "NAN" is not in the vocabulary the row stays in the clean output with
`icd_valid_flag = false` and is copied into the visits quarantine tagged
INVALID_ICD_CODE/WARN. -/
theorem C10_null_icd_is_warn (icd : IcdRef) (visits : Df Visit)
    (fl : Df FlaggedVisit × List (QRow Visit) × LogEntry) (col : String)
    (hok : icdStage icd visits = .ok fl)
    (hcol : find_icd_column icd.columns = some col)
    (hnan : (icdCodes icd col).contains "NAN" = false) :
    (∀ v : Visit,
      visitHasNull { v with icd_code := none } = visitHasNull v) ∧
    normCode none = "NAN" ∧
    (∀ r ∈ visits, r.2.icd_code = none →
      ((r.1, (⟨{ r.2 with icd_code := some "NAN" }, false⟩ : FlaggedVisit))
          ∈ fl.1) ∧
      (⟨r.1, { r.2 with icd_code := some "NAN" }, "INVALID_ICD_CODE",
        "WARN"⟩ : QRow Visit) ∈ fl.2.1) := by
  obtain ⟨col2, hcol2, rfl⟩ := icdStage_ok hok
  rw [hcol] at hcol2
  injection hcol2 with hc
  subst hc
  have h0 : normCode none = "NAN" := by decide
  refine ⟨fun v => rfl, h0, ?_⟩
  intro r hr hic
  have h2 : normCode r.2.icd_code = "NAN" := by rw [hic, h0]
  have h1 : ((r.1, { r.2 with icd_code := some "NAN" }) : Nat × Visit) ∈
      icdNormVisits visits := by
    refine List.mem_map.2 ⟨r, hr, ?_⟩
    rw [h2]
  have hnan2 : "NAN" ∉ icdCodes icd col := by simpa using hnan
  constructor
  · refine List.mem_map.2 ⟨_, h1, ?_⟩
    simp [pyStr, hnan2]
  · refine List.mem_map.2 ⟨(r.1, { r.2 with icd_code := some "NAN" }),
      List.mem_filter.2 ⟨h1, ?_⟩, rfl⟩
    simp [pyStr, hnan2]

/-- Witness for C10: in the concrete ICD stage the row whose `icd_code` is
null appears in the WARN quarantine as code "NAN". -/
theorem C10_null_icd_is_warn_witness :
    (⟨2, ⟨some "V3", some "P1", some "D1", some 700, some "NAN"⟩,
      "INVALID_ICD_CODE", "WARN"⟩ : QRow Visit) ∈ exIcdOut.2.1 :=
  ((C10_null_icd_is_warn exIcd exIcdVisits exIcdOut "code" rfl
      (by decide) (by decide)).2.2
    (2, ⟨some "V3", some "P1", some "D1", some 700, none⟩) (by decide)
    (by decide)).2

/-- C7: a successful run writes exactly one decision-log entry per rule
invocation, in source order — ten entries for the ten invocations, with
the entry present even when the invocation's invalid count is zero (the
counts are unconstrained here, only the entries' identities). -/
theorem C7_one_log_entry_per_rule (today : Int) (icd : IcdRef)
    (p0 : Df Patient) (v0 : Df Visit) (l0 : Df Lab) (res : RunResult)
    (hok : runPipeline today icd p0 v0 l0 = .ok res) :
    res.log.map (fun e => (e.entity, e.rule, e.severity)) =
      [("patients", "NULL_VIOLATION", "ERROR"),
       ("patients", "DUPLICATE_RECORD", "ERROR"),
       ("patients", "DOB_IN_FUTURE", "ERROR"),
       ("visits", "NULL_VIOLATION", "ERROR"),
       ("visits", "DUPLICATE_RECORD", "ERROR"),
       ("visits", "VISIT_BEFORE_DOB", "ERROR"),
       ("labs", "NULL_VIOLATION", "ERROR"),
       ("labs", "DUPLICATE_RECORD", "ERROR"),
       ("labs", "ORPHAN_VISIT_ID", "ERROR"),
       ("visits", "INVALID_ICD_CODE", "WARN")] := by
  obtain ⟨fl, hicd, rfl⟩ := runPipeline_ok hok
  obtain ⟨col, hcol, rfl⟩ := icdStage_ok hicd
  simp [patientsStage, visitsStage, visitsNullDup, labsStage, labsNullDup,
    not_null_check, duplicate_check, apply_rule]

/-- Witness for C7 on the example run. -/
theorem C7_one_log_entry_per_rule_witness :
    exResult.log.map (fun e => (e.entity, e.rule, e.severity)) =
      [("patients", "NULL_VIOLATION", "ERROR"),
       ("patients", "DUPLICATE_RECORD", "ERROR"),
       ("patients", "DOB_IN_FUTURE", "ERROR"),
       ("visits", "NULL_VIOLATION", "ERROR"),
       ("visits", "DUPLICATE_RECORD", "ERROR"),
       ("visits", "VISIT_BEFORE_DOB", "ERROR"),
       ("labs", "NULL_VIOLATION", "ERROR"),
       ("labs", "DUPLICATE_RECORD", "ERROR"),
       ("labs", "ORPHAN_VISIT_ID", "ERROR"),
       ("visits", "INVALID_ICD_CODE", "WARN")] :=
  C7_one_log_entry_per_rule 1000 exIcd exPatients exVisits exLabs exResult
    rfl

/-- Helper: after the lab null and duplicate checks, every quarantine
entry is tagged with one of those two rules. -/
theorem labsNullDup_rules (df : Df Lab) :
    ∀ e ∈ (labsNullDup df).2.1,
      e.quarantine_rule = "NULL_VIOLATION" ∨
      e.quarantine_rule = "DUPLICATE_RECORD" := by
  intro e he
  have hsplit : (labsNullDup df).2.1 =
      (df.filter (fun r => labHasNull r.2)).map
        (fun i => (⟨i.1, i.2, "NULL_VIOLATION", "ERROR"⟩ : QRow Lab)) ++
      (((not_null_check labHasNull "labs" df []).1).filter
          (dupPred (fun l => (l.visit_id, l.test_name))
            (not_null_check labHasNull "labs" df []).1)).map
        (fun i => (⟨i.1, i.2, "DUPLICATE_RECORD", "ERROR"⟩ : QRow Lab)) :=
    rfl
  rw [hsplit] at he
  rcases List.mem_append.1 he with he | he
  · obtain ⟨i, _, rfl⟩ := List.mem_map.1 he
    exact Or.inl rfl
  · obtain ⟨i, _, rfl⟩ := List.mem_map.1 he
    exact Or.inr rfl

/-- Helper: a lab row is tagged ORPHAN_VISIT_ID in the lab quarantine
exactly when it survived the labs' own null and duplicate checks and its
`visit_id` matches no surviving visit. -/
theorem labsStage_orphan_iff (vClean : Df Visit) (df : Df Lab) (i : Nat)
    (l : Lab) :
    ((⟨i, l, "ORPHAN_VISIT_ID", "ERROR"⟩ : QRow Lab) ∈
        (labsStage vClean df).2.1) ↔
      ((i, l) ∈ (labsNullDup df).1 ∧
        ∀ v ∈ vClean, v.2.visit_id ≠ l.visit_id) := by
  have hsplit : (labsStage vClean df).2.1 =
      (labsNullDup df).2.1 ++
        ((labsNullDup df).1.filter (orphanPred vClean)).map
          (fun r => (⟨r.1, r.2, "ORPHAN_VISIT_ID", "ERROR"⟩ : QRow Lab)) :=
    rfl
  rw [hsplit, List.mem_append]
  constructor
  · rintro (he | he)
    · rcases labsNullDup_rules df _ he with h | h <;> simp at h
    · obtain ⟨r, hr, heq⟩ := List.mem_map.1 he
      injection heq with h1 h2 h3 h4
      have hmem : ((i, l) : Nat × Lab) ∈ (labsNullDup df).1 := by
        rw [← h1, ← h2]
        exact (List.mem_filter.1 hr).1
      have hp := (List.mem_filter.1 hr).2
      simp only [orphanPred, Bool.not_eq_true', List.any_eq_false,
        decide_eq_true_eq] at hp
      refine ⟨hmem, fun v hv => ?_⟩
      rw [← h2]
      exact hp v hv
  · rintro ⟨hmem, hforall⟩
    right
    refine List.mem_map.2 ⟨(i, l), List.mem_filter.2 ⟨hmem, ?_⟩, rfl⟩
    have hany : vClean.any (fun v => decide (v.2.visit_id = l.visit_id)) =
        false :=
      List.any_eq_false.2 (fun v hv => by simpa using hforall v hv)
    show (!(vClean.any (fun v => decide (v.2.visit_id = l.visit_id)))) =
      true
    rw [hany]
    rfl

/-- C8: in a successful run, a lab row carries an ORPHAN_VISIT_ID
quarantine entry if and only if it survived the labs' own null and
duplicate checks and its `visit_id` is absent from the key set of the
visits that survived their own local (ERROR) validation. -/
theorem C8_orphan_iff_surviving_visits (today : Int) (icd : IcdRef)
    (p0 : Df Patient) (v0 : Df Visit) (l0 : Df Lab) (res : RunResult)
    (hok : runPipeline today icd p0 v0 l0 = .ok res) (i : Nat) (l : Lab) :
    ((⟨i, l, "ORPHAN_VISIT_ID", "ERROR"⟩ : QRow Lab) ∈ res.qLabs) ↔
      ((i, l) ∈ (labsNullDup (cleanLabs l0)).1 ∧
        ∀ v ∈ (visitsStage (patientsStage today (cleanPatients p0)).1
            (cleanVisits v0)).1,
          v.2.visit_id ≠ l.visit_id) := by
  obtain ⟨fl, hicd, rfl⟩ := runPipeline_ok hok
  exact labsStage_orphan_iff _ _ i l

/-- Witness for C8 on the example run, at the orphan lab row. -/
theorem C8_orphan_iff_surviving_visits_witness :
    ((⟨1, ⟨some "VX", some "NA", some "3"⟩, "ORPHAN_VISIT_ID", "ERROR"⟩ :
        QRow Lab) ∈ exResult.qLabs) ↔
      ((1, (⟨some "VX", some "NA", some "3"⟩ : Lab)) ∈
          (labsNullDup (cleanLabs exLabs)).1 ∧
        ∀ v ∈ (visitsStage (patientsStage 1000 (cleanPatients exPatients)).1
            (cleanVisits exVisits)).1,
          v.2.visit_id ≠ (⟨some "VX", some "NA", some "3"⟩ : Lab).visit_id) :=
  C8_orphan_iff_surviving_visits 1000 exIcd exPatients exVisits exLabs
    exResult rfl 1 ⟨some "VX", some "NA", some "3"⟩

/-- C6: in a successful run over input frames with duplicate-free indices,
no row appears in more than one quarantine entry for its entity: each
per-entity quarantine's index list is duplicate-free.  Each ERROR rule
removes the rows it rejects from the working set before the next rule
runs, and the WARN rule copies only rows still in the clean set, which are
disjoint from every earlier rejection. -/
theorem C6_at_most_one_quarantine_entry (today : Int) (icd : IcdRef)
    (p0 : Df Patient) (v0 : Df Visit) (l0 : Df Lab) (res : RunResult)
    (hok : runPipeline today icd p0 v0 l0 = .ok res)
    (hp : (p0.map Prod.fst).Nodup) (hv : (v0.map Prod.fst).Nodup)
    (hl : (l0.map Prod.fst).Nodup) :
    (res.qPatients.map QRow.idx).Nodup ∧
    (res.qVisits.map QRow.idx).Nodup ∧
    (res.qLabs.map QRow.idx).Nodup := by
  obtain ⟨fl, hicd, rfl⟩ := runPipeline_ok hok
  obtain ⟨col, hcol, rfl⟩ := icdStage_ok hicd
  have hp2 : ((cleanPatients p0).map Prod.fst).Nodup := by
    rw [cleanPatients_idx]
    exact hp
  have hv2 : ((cleanVisits v0).map Prod.fst).Nodup := by
    rw [cleanVisits_idx]
    exact hv
  have hl2 : ((cleanLabs l0).map Prod.fst).Nodup := by
    rw [cleanLabs_idx]
    exact hl
  refine ⟨(patientsStage_StOk today hp2).2.1, ?_,
    (labsStage_StOk _ hl2).2.1⟩
  obtain ⟨hv1, hvq, hvd⟩ := visitsStage_StOk
    (patientsStage today (cleanPatients p0)).1 hv2
  rw [List.map_append]
  refine List.Nodup.append hvq ?_ ?_
  · have heq : (icdEntries icd col (visitsStage (patientsStage today
        (cleanPatients p0)).1 (cleanVisits v0)).1).map QRow.idx =
        (icdInvalid icd col (visitsStage (patientsStage today
          (cleanPatients p0)).1 (cleanVisits v0)).1).map Prod.fst := by
      rw [icdEntries, List.map_map]
      rfl
    rw [heq]
    have hnn : ((icdNormVisits (visitsStage (patientsStage today
        (cleanPatients p0)).1 (cleanVisits v0)).1).map Prod.fst).Nodup := by
      rw [icdNormVisits_idx]
      exact hv1
    exact filter_idx_nodup hnn _
  · intro a ha hb
    obtain ⟨e, he, hea⟩ := List.mem_map.1 ha
    obtain ⟨x, hx, hxa⟩ := List.mem_map.1 hb
    obtain ⟨i, hi, hix⟩ := List.mem_map.1 hx
    obtain ⟨v, hvmem, hvi⟩ := List.mem_map.1 (List.mem_filter.1 hi).1
    apply hvd v hvmem e he
    rw [hea, ← hxa, ← hix, ← hvi]

/-- Witness for C6 on the example run. -/
theorem C6_at_most_one_quarantine_entry_witness :
    (exResult.qPatients.map QRow.idx).Nodup ∧
    (exResult.qVisits.map QRow.idx).Nodup ∧
    (exResult.qLabs.map QRow.idx).Nodup :=
  C6_at_most_one_quarantine_entry 1000 exIcd exPatients exVisits exLabs
    exResult rfl (by decide) (by decide) (by decide)

/-- C1 counterexample: in the example run the only patient is quarantined
under DOB_IN_FUTURE, and the single visit row references exactly that
patient — yet the visits quarantine stays empty and the visit remains in
the clean output (flagged valid).  The claimed patient-to-visit cascade
does not happen: the source has no referential-existence rule for visits,
and VISIT_BEFORE_DOB passes a visit whose left-joined `date_of_birth` is
missing. -/
theorem C1_counterexample :
    (runPipeline 1000 exIcd exPatients exVisits exLabs).toOption.map
        (fun r => (r.qPatients.map (fun e => (e.idx, e.quarantine_rule)),
          r.visits.map (fun x => (x.2.visit.patient_id, x.2.icd_valid_flag)),
          r.qVisits)) =
      some ([(0, "DOB_IN_FUTURE")], [(some "P1", true)], []) := by
  decide

/-- C1 amended: only the labs-to-visits half of the cascade exists.  Every
lab row that survives the labs' own null and duplicate checks and whose
`visit_id` matches no surviving visit is quarantined under ORPHAN_VISIT_ID
in the same run; by contrast, a visit row that survives the visits' own
null and duplicate checks and whose `patient_id` matches no surviving
patient is NOT quarantined — the VISIT_BEFORE_DOB comparison treats the
missing join partner as valid, so the row stays in the clean visits set
and receives no visits quarantine entry from the ERROR chain. -/
theorem C1_cascade_only_for_labs (vClean : Df Visit) (dfL : Df Lab)
    (pClean : Df Patient) (dfV : Df Visit)
    (hnd : (dfV.map Prod.fst).Nodup) :
    (∀ r ∈ (labsNullDup dfL).1,
      (∀ v ∈ vClean, v.2.visit_id ≠ r.2.visit_id) →
      (⟨r.1, r.2, "ORPHAN_VISIT_ID", "ERROR"⟩ : QRow Lab) ∈
        (labsStage vClean dfL).2.1) ∧
    (∀ r ∈ (visitsNullDup dfV).1,
      (∀ p ∈ pClean, p.2.patient_id ≠ r.2.patient_id) →
      r ∈ (visitsStage pClean dfV).1 ∧
      ∀ e ∈ (visitsStage pClean dfV).2.1, e.idx ≠ r.1) := by
  constructor
  · intro r hr hno
    exact (labsStage_orphan_iff vClean dfL r.1 r.2).2 ⟨hr, hno⟩
  · intro r hr hnopat
    have hndv : ((visitsNullDup dfV).1.map Prod.fst).Nodup :=
      (visitsNullDup_StOk hnd).1
    have hfind : pClean.find?
        (fun p => p.2.patient_id == r.2.patient_id) = none :=
      List.find?_eq_none.2 (fun p hp => by
        simpa using hnopat p hp)
    have hvb : visitBeforeDob pClean r.2 = false := by
      cases hvd : r.2.visit_date with
      | none => simp [visitBeforeDob, hvd]
      | some vd => simp [visitBeforeDob, hvd, lookupDob, hfind]
    constructor
    · show r ∈ (apply_rule "visits" "VISIT_BEFORE_DOB" "ERROR"
        (fun rr => visitBeforeDob pClean rr.2) (visitsNullDup dfV).1
        (visitsNullDup dfV).2.1).1
      rw [apply_rule_eq _ _ _ _ _ _ hndv]
      refine List.mem_filter.2 ⟨hr, ?_⟩
      show (!(visitBeforeDob pClean r.2)) = true
      rw [hvb]
      rfl
    · intro e he
      obtain ⟨hs1, hs2, hs3⟩ := visitsNullDup_StOk hnd
      rcases List.mem_append.1 he with he | he
      · exact (hs3 r hr e he).symm
      · obtain ⟨i, hi, rfl⟩ := List.mem_map.1 he
        intro hir
        have hieq : i = r :=
          idx_inj hndv (List.mem_filter.1 hi).1 hr hir
        have hpi := (List.mem_filter.1 hi).2
        rw [hieq] at hpi
        rw [hvb] at hpi
        exact Bool.noConfusion hpi

/-- Witness for C1 amended: in the running example, the orphan lab row is
quarantined, while the visit referencing the quarantined patient "P1"
survives into the clean visits set. -/
theorem C1_cascade_only_for_labs_witness :
    ((⟨1, ⟨some "VX", some "NA", some "3"⟩, "ORPHAN_VISIT_ID", "ERROR"⟩ :
        QRow Lab) ∈
      (labsStage (visitsStage (patientsStage 1000
          (cleanPatients exPatients)).1 (cleanVisits exVisits)).1
        (cleanLabs exLabs)).2.1) ∧
    ((0, (⟨some "V1", some "P1", some "D1", some 500, some "A01"⟩ :
        Visit)) ∈
      (visitsStage (patientsStage 1000 (cleanPatients exPatients)).1
        (cleanVisits exVisits)).1) :=
  ⟨(C1_cascade_only_for_labs
      (visitsStage (patientsStage 1000 (cleanPatients exPatients)).1
        (cleanVisits exVisits)).1
      (cleanLabs exLabs)
      (patientsStage 1000 (cleanPatients exPatients)).1
      (cleanVisits exVisits) (by decide)).1
    (1, ⟨some "VX", some "NA", some "3"⟩) (by decide) (by decide),
   ((C1_cascade_only_for_labs
      (visitsStage (patientsStage 1000 (cleanPatients exPatients)).1
        (cleanVisits exVisits)).1
      (cleanLabs exLabs)
      (patientsStage 1000 (cleanPatients exPatients)).1
      (cleanVisits exVisits) (by decide)).2
    (0, ⟨some "V1", some "P1", some "D1", some 500, some "A01"⟩)
    (by decide) (by decide)).1⟩

end EMR

